import Mathlib

/-!
Verification development for the CamliDraw gesture-drawing application.

The TypeScript sources are shallowly embedded:
  * coordinates and all reducer state are exact rationals (`ℚ`);
  * `Math.sqrt` appears in the source only (a) inside comparisons
    `sqrt s < t` with `t > 0`, which we translate to the equivalent
    `s < t ^ 2` (see `sqrt_lt_iff_sq_lt`), and (b) in the pinch/zoom
    confidence and distance payloads of the classifier, which we keep as
    exact real numbers (`Real.sqrt`);
  * fallible / NaN-producing float arithmetic in the frame-difference
    detector is modelled with `Option ℚ` where `Option.none` plays the
    role of NaN (it propagates through arithmetic and makes every
    comparison false, exactly as NaN does).
-/

/-- 2D point, from `types/gestures.ts` (`Point`). -/
structure Point where
  x : ℚ
  y : ℚ
  deriving DecidableEq

/-- 3D hand landmark, from `types/gestures.ts` (`Landmark`). -/
structure Landmark where
  x : ℚ
  y : ℚ
  z : ℚ
  deriving DecidableEq

/-- Gesture tag, from `types/gestures.ts` (`GestureType`). -/
inductive GestureType where
  | pinch
  | palm
  | zoom
  | fist
  | none
  deriving DecidableEq

/-- Classified gesture, from `types/gestures.ts` (`GestureState`), generic in
the numeric type of the confidence / distance payload: the classifier module
produces real-valued payloads (square roots), while the reducer in `App.tsx`
is uniform in those payloads and is instantiated at `ℚ` to stay executable. -/
structure GestureState (α : Type) where
  type : GestureType
  confidence : α
  position : Point
  distance : Option α
  deriving DecidableEq

/-- Squared Euclidean distance of two landmarks (x/y only), the radicand of
`calculateDistance` in `utils/gestureDetection.ts`. -/
def calculateDistanceSq (p q : Landmark) : ℚ :=
  (p.x - q.x) ^ 2 + (p.y - q.y) ^ 2

/-- `calculateDistance` from `utils/gestureDetection.ts`:
`Math.sqrt((p1.x-p2.x)^2 + (p1.y-p2.y)^2)`. -/
noncomputable def calculateDistance (p q : Landmark) : ℝ :=
  Real.sqrt ((calculateDistanceSq p q : ℚ) : ℝ)

/-- `getFingerTip` from `utils/gestureDetection.ts`. -/
def getFingerTip (l : List Landmark) (finger : ℕ) : Landmark :=
  l.getD ([4, 8, 12, 16, 20].getD finger 0) ⟨0, 0, 0⟩

/-- `getFingerPip` from `utils/gestureDetection.ts`. -/
def getFingerPip (l : List Landmark) (finger : ℕ) : Landmark :=
  l.getD ([3, 6, 10, 14, 18].getD finger 0) ⟨0, 0, 0⟩

/-- `getFingerMcp` from `utils/gestureDetection.ts`. -/
def getFingerMcp (l : List Landmark) (finger : ℕ) : Landmark :=
  l.getD ([2, 5, 9, 13, 17].getD finger 0) ⟨0, 0, 0⟩

/-- `isFingerExtended` from `utils/gestureDetection.ts` (margin 0.02 = 1/50). -/
def isFingerExtended (l : List Landmark) (finger : ℕ) : Bool :=
  let tip := getFingerTip l finger
  let pip := getFingerPip l finger
  let mcp := getFingerMcp l finger
  if finger = 0 then
    decide (|pip.x - mcp.x| + 1 / 50 < |tip.x - mcp.x|)
  else
    decide (mcp.y - pip.y + 1 / 50 < mcp.y - tip.y)

/-- `getExtendedFingerCount` from `utils/gestureDetection.ts`. -/
def getExtendedFingerCount (l : List Landmark) : ℕ :=
  ([0, 1, 2, 3, 4].filter (fun f => isFingerExtended l f)).length

/-- Pinch confidence from `utils/gestureDetection.ts` line 78:
`Math.max(0.4, 1 - thumbIndexDistance * 15)`. -/
noncomputable def pinchConfidence (d : ℝ) : ℝ :=
  max 0.4 (1 - d * 15)

/-- `detectGesture` from `utils/gestureDetection.ts`.  The source compares
`thumbIndexDistance < 0.04` where `thumbIndexDistance` is a square root; since
`0.04 > 0` this is equivalent to `thumbIndexDistanceSq < 0.04^2 = 1/625`
(lemma `sqrt_lt_iff_sq_lt`), which keeps every branch test decidable.  The
confidence and the zoom `distance` payload keep their exact real values. -/
noncomputable def detectGesture (landmarks : List Landmark) : GestureState ℝ :=
  if landmarks.length = 21 then
    let thumbTip := getFingerTip landmarks 0
    let indexTip := getFingerTip landmarks 1
    let middleTip := getFingerTip landmarks 2
    let thumbIndexDistSq := calculateDistanceSq thumbTip indexTip
    let thumbMiddleDistSq := calculateDistanceSq thumbTip middleTip
    let extendedFingers := getExtendedFingerCount landmarks
    if thumbIndexDistSq < 1 / 625 ∧ extendedFingers ≤ 1 then
      { type := GestureType.pinch,
        confidence := pinchConfidence (Real.sqrt ((thumbIndexDistSq : ℚ) : ℝ)),
        position := ⟨(thumbTip.x + indexTip.x) / 2, (thumbTip.y + indexTip.y) / 2⟩,
        distance := Option.none }
    else if isFingerExtended landmarks 0 = true ∧ isFingerExtended landmarks 2 = true ∧
        isFingerExtended landmarks 1 = false ∧ isFingerExtended landmarks 3 = false ∧
        isFingerExtended landmarks 4 = false then
      { type := GestureType.zoom,
        confidence := 0.8,
        position := ⟨(thumbTip.x + middleTip.x) / 2, (thumbTip.y + middleTip.y) / 2⟩,
        distance := Option.some (Real.sqrt ((thumbMiddleDistSq : ℚ) : ℝ)) }
    else if extendedFingers = 0 then
      { type := GestureType.fist,
        confidence := 0.9,
        position := ⟨(landmarks.getD 9 ⟨0, 0, 0⟩).x, (landmarks.getD 9 ⟨0, 0, 0⟩).y⟩,
        distance := Option.none }
    else if 4 ≤ extendedFingers then
      { type := GestureType.palm,
        confidence := 0.8,
        position := ⟨(landmarks.getD 9 ⟨0, 0, 0⟩).x, (landmarks.getD 9 ⟨0, 0, 0⟩).y⟩,
        distance := Option.none }
    else if extendedFingers = 1 ∧ isFingerExtended landmarks 1 = true then
      { type := GestureType.pinch,
        confidence := 0.4,
        position := ⟨indexTip.x, indexTip.y⟩,
        distance := Option.none }
    else
      { type := GestureType.none, confidence := 0, position := ⟨0, 0⟩, distance := Option.none }
  else
    { type := GestureType.none, confidence := 0, position := ⟨0, 0⟩, distance := Option.none }

/-- `detectGesture`'s guard `!landmarks || landmarks.length !== 21`: a null /
absent landmark array is modelled as `Option.none`. -/
noncomputable def detectGestureOpt : Option (List Landmark) → GestureState ℝ
  | Option.none =>
      { type := GestureType.none, confidence := 0, position := ⟨0, 0⟩, distance := Option.none }
  | Option.some l => detectGesture l

/-- A fully closed synthetic hand (all 21 landmarks coincide): no finger is
extended, yet thumb tip and index tip are coincident. -/
def closedPinchHand : List Landmark := List.replicate 21 ⟨1 / 2, 1 / 2, 0⟩

/-- A fully closed synthetic hand whose thumb tip is far (0.4 in y) from the
index tip: zero fingers extended and the pinch threshold is not met. -/
def closedFarHand : List Landmark :=
  [⟨1 / 2, 1 / 2, 0⟩, ⟨1 / 2, 1 / 2, 0⟩, ⟨1 / 2, 1 / 2, 0⟩, ⟨1 / 2, 1 / 2, 0⟩,
   ⟨1 / 2, 9 / 10, 0⟩, ⟨1 / 2, 1 / 2, 0⟩, ⟨1 / 2, 1 / 2, 0⟩, ⟨1 / 2, 1 / 2, 0⟩,
   ⟨1 / 2, 1 / 2, 0⟩, ⟨1 / 2, 1 / 2, 0⟩, ⟨1 / 2, 1 / 2, 0⟩, ⟨1 / 2, 1 / 2, 0⟩,
   ⟨1 / 2, 1 / 2, 0⟩, ⟨1 / 2, 1 / 2, 0⟩, ⟨1 / 2, 1 / 2, 0⟩, ⟨1 / 2, 1 / 2, 0⟩,
   ⟨1 / 2, 1 / 2, 0⟩, ⟨1 / 2, 1 / 2, 0⟩, ⟨1 / 2, 1 / 2, 0⟩, ⟨1 / 2, 1 / 2, 0⟩,
   ⟨1 / 2, 1 / 2, 0⟩]

/-- Squared Euclidean distance of two 2D points, the radicand of the inline
`Math.sqrt(...)` distance computations in `App.tsx` (erase test, minimum
movement test).  Those square roots occur only inside comparisons against
positive thresholds and are modelled by the equivalent squared comparisons. -/
def distSq (p q : Point) : ℚ :=
  (p.x - q.x) ^ 2 + (p.y - q.y) ^ 2

/-- `DrawingState` from `types/gestures.ts`. -/
structure DrawingState where
  isDrawing : Bool
  isPanning : Bool
  isZooming : Bool
  isErasing : Bool
  scale : ℚ
  offset : Point
  currentPath : List Point
  paths : List (List Point)
  deriving DecidableEq

/-- The full mutable state of the `App` component: the reactive
`DrawingState` plus the mutable ref cells of `App.tsx`. -/
structure AppState where
  drawing : DrawingState
  lastGesture : Option (GestureState ℚ)
  lastZoomDistance : Option ℚ
  panStart : Option Point
  lastGestureType : Option GestureType
  lastDrawPosition : Option Point
  positionHistory : List Point
  deriving DecidableEq

/-- The initial `useState` value of `drawingState` in `App.tsx`. -/
def initialDrawingState : DrawingState :=
  { isDrawing := false, isPanning := false, isZooming := false, isErasing := false,
    scale := 1, offset := ⟨0, 0⟩, currentPath := [], paths := [] }

/-- The initial state of the `App` component (all refs null/empty). -/
def initialAppState : AppState :=
  { drawing := initialDrawingState, lastGesture := Option.none,
    lastZoomDistance := Option.none, panStart := Option.none,
    lastGestureType := Option.none, lastDrawPosition := Option.none,
    positionHistory := [] }

/-- `screenToCanvas` from `App.tsx`:
`(screenPoint * window.innerWidth/Height - offset) / scale`, with the
viewport dimensions `W`, `H` as explicit parameters. -/
def screenToCanvas (W H : ℚ) (offset : Point) (scale : ℚ) (p : Point) : Point :=
  ⟨(p.x * W - offset.x) / scale, (p.y * H - offset.y) / scale⟩

/-- Modelled from the spec: the inverse transform
`screen = (canvas * scale + offset) / viewport_dimension` named by §4.3 and
the coordinate round-trip property; no inverse function exists in `src/`. -/
def canvasToScreen (W H : ℚ) (offset : Point) (scale : ℚ) (p : Point) : Point :=
  ⟨(p.x * scale + offset.x) / W, (p.y * scale + offset.y) / H⟩

/-- JavaScript truthiness of a nullable number (`gesture.distance && ...`,
`lastZoomDistanceRef.current && ...`): present and nonzero. -/
def distTruthy (o : Option ℚ) : Prop := o.getD 0 ≠ 0

instance (o : Option ℚ) : Decidable (distTruthy o) := by
  unfold distTruthy
  infer_instance

/-- The erase filter predicate of `App.tsx` lines 212-220 (keep a path iff no
point is within the erase radius of the fist's canvas-projected position);
`pre` is the `drawingState` closure value.  The source compares
`Math.sqrt(dsq) < 50 / scale`; for positive radius this is `dsq < (50/scale)^2`. -/
def erasePred (W H : ℚ) (g : GestureState ℚ) (pre : DrawingState) (path : List Point) : Bool :=
  ! path.any (fun pt => decide (distSq pt
      (screenToCanvas W H pre.offset pre.scale ⟨1 - g.position.x, g.position.y⟩) <
      (50 / pre.scale) ^ 2))

/-- The drawing channel of `handleGestureDetected` (`App.tsx` lines 61-102):
start a session on a confident pinch, finish the current path when a
non-pinch gesture arrives while drawing (paths with at most one point are
discarded).  `pre` is the `drawingState` closure value read by the source's
conditions; updates apply to the accumulated state `s`. -/
def drawStep (g : GestureState ℚ) (pre : DrawingState) (s : AppState) : AppState :=
  if g.type = GestureType.pinch ∧ 3 / 5 < g.confidence then
    if pre.isDrawing = false then
      { s with
          drawing := { s.drawing with isDrawing := true, currentPath := [] }
          positionHistory := []
          lastDrawPosition := Option.none }
    else s
  else if pre.isDrawing = true ∧ g.type ≠ GestureType.pinch then
    if 1 < s.drawing.currentPath.length then
      { s with
          drawing := { s.drawing with
                        isDrawing := false
                        paths := s.drawing.paths ++ [s.drawing.currentPath]
                        currentPath := [] } }
    else
      { s with drawing := { s.drawing with isDrawing := false, currentPath := [] } }
  else s

/-- `App.tsx` lines 105-108: reset the last-gesture-type ref on `none`. -/
def gestureResetStep (g : GestureState ℚ) (s : AppState) : AppState :=
  if g.type = GestureType.none then { s with lastGestureType := Option.none } else s

/-- The panning channel of `handleGestureDetected` (`App.tsx` lines 111-166):
on a confident palm, record the flipped screen point or accumulate the delta
into the view offset. -/
def panStep (W H : ℚ) (g : GestureState ℚ) (pre : DrawingState) (s : AppState) : AppState :=
  if g.type = GestureType.palm ∧ 7 / 10 < g.confidence then
    let fsp : Point := ⟨(1 - g.position.x) * W, g.position.y * H⟩
    if pre.isPanning = false then
      { s with drawing := { s.drawing with isPanning := true }, panStart := Option.some fsp }
    else
      match s.panStart with
      | Option.some ps =>
          { s with
              drawing := { s.drawing with
                offset := ⟨s.drawing.offset.x + (fsp.x - ps.x),
                           s.drawing.offset.y + (fsp.y - ps.y)⟩ }
              panStart := Option.some fsp }
      | Option.none => s
  else if pre.isPanning = true ∧ g.type ≠ GestureType.palm then
    { s with drawing := { s.drawing with isPanning := false }, panStart := Option.none }
  else s

/-- The zooming channel of `handleGestureDetected` (`App.tsx` lines 168-193):
on a confident zoom with truthy distance, record the baseline distance or
multiply the scale by the distance ratio, clamped to [0.1, 5].  The clamp
`Math.max(0.1, Math.min(5, drawingState.scale * zoomFactor))` reads the
closure value `pre.scale`. -/
def zoomStep (g : GestureState ℚ) (pre : DrawingState) (s : AppState) : AppState :=
  if g.type = GestureType.zoom ∧ distTruthy g.distance ∧ 7 / 10 < g.confidence then
    if pre.isZooming = false then
      { s with drawing := { s.drawing with isZooming := true }, lastZoomDistance := g.distance }
    else if distTruthy s.lastZoomDistance then
      { s with
          drawing := { s.drawing with
            scale := max (1 / 10)
              (min 5 (pre.scale * (g.distance.getD 0 / s.lastZoomDistance.getD 0))) }
          lastZoomDistance := g.distance }
    else s
  else if pre.isZooming = true ∧ g.type ≠ GestureType.zoom then
    { s with drawing := { s.drawing with isZooming := false }, lastZoomDistance := Option.none }
  else s

/-- The erasing channel of `handleGestureDetected` (`App.tsx` lines 196-227):
on a confident fist, mark `isErasing` and drop every completed path with a
point within the erase radius of the fist's canvas-projected (mirrored)
position. -/
def eraseStep (W H : ℚ) (g : GestureState ℚ) (pre : DrawingState) (s : AppState) : AppState :=
  if g.type = GestureType.fist ∧ 4 / 5 < g.confidence then
    let s1 := if pre.isErasing = false then
      { s with drawing := { s.drawing with isErasing := true } } else s
    { s1 with drawing := { s1.drawing with
        paths := s1.drawing.paths.filter (erasePred W H g pre) } }
  else if pre.isErasing = true ∧ g.type ≠ GestureType.fist then
    { s with drawing := { s.drawing with isErasing := false } }
  else s

/-- One invocation of `handleGestureDetected` (`App.tsx` lines 44-231): the
five channel blocks run in program order, reading the pre-invocation
`drawingState` closure (`pre`) in their conditions while their functional
state updates compose sequentially; finally the last-gesture refs are set. -/
def step (W H : ℚ) (s : AppState) (g : GestureState ℚ) : AppState :=
  let pre := s.drawing
  let s1 := drawStep g pre s
  let s2 := gestureResetStep g s1
  let s3 := panStep W H g pre s2
  let s4 := zoomStep g pre s3
  let s5 := eraseStep W H g pre s4
  { s5 with lastGesture := Option.some g, lastGestureType := Option.some g.type }

/-- Push a raw position into the smoothing history, keeping the last
`SMOOTHING_WINDOW = 3` entries (`App.tsx` lines 252-255). -/
def pushHistory (hist : List Point) (p : Point) : List Point :=
  let h1 := hist ++ [p]
  if 3 < h1.length then h1.drop 1 else h1

/-- Coordinate-wise mean of the position history (`App.tsx` lines 258-261). -/
def smoothedOf (hist : List Point) : Point :=
  ⟨(hist.map Point.x).sum / hist.length, (hist.map Point.y).sum / hist.length⟩

/-- The path-extension part of `handleHandPositionUpdate` (`App.tsx` lines
276-307): mirror, project to canvas space, then start a fresh path or append
to the current one (skipping exact duplicates and paths of 1000 points). -/
def emitPoint (W H : ℚ) (s : AppState) (hist : List Point) (smoothed : Point) : AppState :=
  let cp := screenToCanvas W H s.drawing.offset s.drawing.scale ⟨1 - smoothed.x, smoothed.y⟩
  if s.drawing.currentPath = [] then
    { s with
        positionHistory := hist
        lastDrawPosition := Option.some smoothed
        drawing := { s.drawing with isDrawing := true, currentPath := [cp] } }
  else if s.drawing.currentPath.getLast?.getD ⟨0, 0⟩ ≠ cp ∧ s.drawing.currentPath.length < 1000 then
    { s with
        positionHistory := hist
        lastDrawPosition := Option.some smoothed
        drawing := { s.drawing with
                      isDrawing := true
                      currentPath := s.drawing.currentPath ++ [cp] } }
  else
    { s with positionHistory := hist }

/-- One invocation of `handleHandPositionUpdate` (`App.tsx` lines 249-316).
While the last gesture type is pinch and a position is present: push into the
smoothing history, and unless the smoothed position is within the minimum
movement threshold (`MIN_DISTANCE_THRESHOLD = 0.01`, compared on the
normalized smoothed positions; `Math.sqrt(dsq) < 0.01` is modelled as
`dsq < 1/10000`) of the last emitted position, emit a stroke point.
Otherwise clear the smoothing refs. -/
def handleHandPositionUpdate (W H : ℚ) (s : AppState) (pos : Option Point) : AppState :=
  if s.lastGestureType = Option.some GestureType.pinch ∧ pos.isSome = true then
    let p := pos.getD ⟨0, 0⟩
    let hist := pushHistory s.positionHistory p
    let smoothed := smoothedOf hist
    match s.lastDrawPosition with
    | Option.some lp =>
        if distSq smoothed lp < 1 / 10000 then { s with positionHistory := hist }
        else emitPoint W H s hist smoothed
    | Option.none => emitPoint W H s hist smoothed
  else
    { s with positionHistory := [], lastDrawPosition := Option.none }

/-- A confident zoom gesture with distance 1, used by concrete witnesses. -/
def zoomG : GestureState ℚ :=
  { type := GestureType.zoom, confidence := 4 / 5, position := ⟨1 / 2, 1 / 2⟩,
    distance := Option.some 1 }

/-- A confident fist gesture at normalized position (1, 0), used by concrete
witnesses; its mirrored canvas projection (at scale 1, offset 0) is (0, 0). -/
def fistG : GestureState ℚ :=
  { type := GestureType.fist, confidence := 9 / 10, position := ⟨1, 0⟩,
    distance := Option.none }

/-- A drawing-in-progress state with a two-point current path, used by the C4
counterexample: the session-ending fist erases the freshly appended stroke. -/
def strokeCexState : AppState :=
  { initialAppState with drawing :=
      { initialDrawingState with isDrawing := true, currentPath := [⟨0, 0⟩, ⟨1, 0⟩] } }

/-- A state with one near and one far completed path, used by the C5 witness. -/
def eraseWitnessState : AppState :=
  { initialAppState with drawing :=
      { initialDrawingState with paths := [[⟨0, 0⟩, ⟨1, 0⟩], [⟨1000, 1000⟩]] } }

/-- A mid-drawing state (pinch held, one-point path, last emitted smoothed
position (0,0), empty history), used by the C7 counterexample and witness. -/
def minMoveState : AppState :=
  { initialAppState with
      drawing := { initialDrawingState with currentPath := [⟨0, 0⟩] },
      lastGestureType := Option.some GestureType.pinch,
      lastDrawPosition := Option.some ⟨0, 0⟩ }

/-- Sampled indices of `detectMotion`'s loop in
`utils/simpleGestureDetection.ts` lines 155-166:
`for (i = 0; i < currentData.length - 2; i += 2)` (JavaScript integer
arithmetic, so an empty or short frame yields no iterations). -/
def sampleIdxs (len : ℕ) : List ℕ :=
  (List.range len).filter (fun i => decide (i % 2 = 0) && decide ((i : ℤ) < (len : ℤ) - 2))

/-- Average brightness of the RGB bytes at index `i`
(`(data[i] + data[i+1] + data[i+2]) / 3`). -/
def brightnessAt (data : List ℕ) (i : ℕ) : ℚ :=
  ((data.getD i 0 : ℚ) + (data.getD (i + 1) 0 : ℚ) + (data.getD (i + 2) 0 : ℚ)) / 3

/-- The previous frame's brightness at index `i`: accessing past the end of
`previousData` yields `undefined`, whose arithmetic is NaN — modelled as
`Option.none`. -/
def prevBrightnessAt (data : List ℕ) (i : ℕ) : Option ℚ :=
  if i + 2 < data.length then Option.some (brightnessAt data i) else Option.none

/-- NaN-propagating addition on the float model (NaN = `Option.none`). -/
def naddOpt : Option ℚ → Option ℚ → Option ℚ
  | Option.some a, Option.some b => Option.some (a + b)
  | _, _ => Option.none

/-- One iteration of `detectMotion`'s loop: accumulate
(motionPixels, totalDifference).  A NaN difference fails the `> 3` motion
test (as NaN comparisons do) and poisons `totalDifference`. -/
def motionAccum (cur prev : List ℕ) (acc : ℕ × Option ℚ) (i : ℕ) : ℕ × Option ℚ :=
  let diff : Option ℚ := (prevBrightnessAt prev i).map (fun pb => |brightnessAt cur i - pb|)
  let mp := if (match diff with
                | Option.some d => decide (3 < d)
                | Option.none => false) = true then acc.1 + 1 else acc.1
  (mp, naddOpt acc.2 diff)

/-- `detectMotion` from `utils/simpleGestureDetection.ts` lines 147-191.
Return type `Option ℚ` makes a NaN return visible as `Option.none`; the
source's guards (`totalPixels === 0` early return, the
`isNaN(avgDifference) || isNaN(motionRatio)` zeroing, and the final
`isNaN(motionScore)` zeroing, which the ℚ model makes unreachable) ensure the
result is always `Option.some`. -/
def detectMotion (cur prev : List ℕ) : Option ℚ :=
  let idxs := sampleIdxs cur.length
  let totalPixels := idxs.length
  let acc := idxs.foldl (motionAccum cur prev) (0, Option.some 0)
  if totalPixels = 0 then Option.some 0
  else
    let guarded : ℚ × ℚ :=
      match acc.2.map (fun td => td / (totalPixels : ℚ)) with
      | Option.some a => (a, (acc.1 : ℚ) / (totalPixels : ℚ))
      | Option.none => (0, 0)
    Option.some (guarded.2 * (4 / 5) + guarded.1 / 255 * (1 / 5))

/-- Bridging lemma documenting the squared-distance translation: for a
positive threshold `t`, the source comparison `Math.sqrt q < t` agrees with
the model comparison `q < t ^ 2`. -/
theorem sqrt_lt_iff_sq_lt (q t : ℚ) (ht : 0 < t) :
    Real.sqrt ((q : ℚ) : ℝ) < (t : ℝ) ↔ q < t ^ 2 := by
  rw [Real.sqrt_lt' (by exact_mod_cast ht)]
  constructor
  · intro h
    exact_mod_cast h
  · intro h
    exact_mod_cast h

/-- Claim C1: for every input landmark list whose length is not 21 (including
the absent/null input), `detectGesture` returns the gesture
`{type: none, confidence: 0}` rather than failing. -/
theorem detectGesture_malformed (l? : Option (List Landmark))
    (h : ∀ l, l? = Option.some l → l.length ≠ 21) :
    detectGestureOpt l? =
      { type := GestureType.none, confidence := 0, position := ⟨0, 0⟩,
        distance := Option.none } := by
  cases l? with
  | none => rfl
  | some l =>
      have hl : ¬ l.length = 21 := h l rfl
      show detectGesture l = _
      unfold detectGesture
      rw [if_neg hl]

/-- Witness for C1 at the concrete malformed input `[one landmark]`. -/
theorem detectGesture_malformed_witness :
    detectGestureOpt (Option.some [⟨0, 0, 0⟩]) =
      { type := GestureType.none, confidence := 0, position := ⟨0, 0⟩,
        distance := Option.none } := by
  exact detectGesture_malformed (Option.some [⟨0, 0, 0⟩])
    (by intro l hl; injection hl with h2; subst h2; decide)

/-- Counterexample to claim C2 as stated: `closedPinchHand` has 21 landmarks
and zero extended fingers, yet `detectGesture` classifies it as `pinch`, not
`fist`, because the pinch rule has higher precedence and its thumb-to-index
threshold is met. -/
theorem fist_claim_cex :
    closedPinchHand.length = 21 ∧
    (isFingerExtended closedPinchHand 0 = false ∧ isFingerExtended closedPinchHand 1 = false ∧
     isFingerExtended closedPinchHand 2 = false ∧ isFingerExtended closedPinchHand 3 = false ∧
     isFingerExtended closedPinchHand 4 = false) ∧
    (detectGesture closedPinchHand).type = GestureType.pinch ∧
    (detectGesture closedPinchHand).type ≠ GestureType.fist := by
  have hmain : (detectGesture closedPinchHand).type = GestureType.pinch := by
    norm_num [closedPinchHand, detectGesture, isFingerExtended, getFingerTip, getFingerPip,
      getFingerMcp, getExtendedFingerCount, calculateDistanceSq, List.replicate, List.getD,
      List.filter]
  refine ⟨by decide, ⟨?_, ?_, ?_, ?_, ?_⟩, hmain, by rw [hmain]; decide⟩ <;>
    norm_num [closedPinchHand, isFingerExtended, getFingerTip, getFingerPip,
      getFingerMcp, List.replicate, List.getD]

/-- Claim C2 (amended): for every 21-landmark hand with zero fingers extended
in which additionally the thumb-tip-to-index-tip distance is at least the
pinch threshold 0.04 (so the higher-precedence pinch rule does not fire),
`detectGesture` returns `fist` with confidence 0.9 and position equal to the
middle-finger base landmark (index 9). -/
theorem detectGesture_fist_amended (l : List Landmark)
    (hlen : l.length = 21)
    (hext : isFingerExtended l 0 = false ∧ isFingerExtended l 1 = false ∧
      isFingerExtended l 2 = false ∧ isFingerExtended l 3 = false ∧
      isFingerExtended l 4 = false)
    (hfar : ¬ calculateDistanceSq (getFingerTip l 0) (getFingerTip l 1) < 1 / 625) :
    detectGesture l =
      { type := GestureType.fist, confidence := 0.9,
        position := ⟨(l.getD 9 ⟨0, 0, 0⟩).x, (l.getD 9 ⟨0, 0, 0⟩).y⟩,
        distance := Option.none } := by
  obtain ⟨h0, h1, h2, h3, h4⟩ := hext
  have hcount : getExtendedFingerCount l = 0 := by
    unfold getExtendedFingerCount
    simp [List.filter, h0, h1, h2, h3, h4]
  unfold detectGesture
  rw [if_pos hlen]
  rw [if_neg (fun hc => hfar hc.1)]
  rw [if_neg (by
    intro hc
    rw [h0] at hc
    exact absurd hc.1 (by decide))]
  rw [if_pos hcount]

/-- Witness for the amended C2 at the concrete hand `closedFarHand`. -/
theorem detectGesture_fist_amended_witness :
    detectGesture closedFarHand =
      { type := GestureType.fist, confidence := 0.9,
        position := ⟨1 / 2, 1 / 2⟩, distance := Option.none } := by
  have h := detectGesture_fist_amended closedFarHand (by decide)
    (by
      refine ⟨?_, ?_, ?_, ?_, ?_⟩ <;>
        norm_num [closedFarHand, isFingerExtended, getFingerTip, getFingerPip, getFingerMcp,
          List.getD])
    (by norm_num [closedFarHand, calculateDistanceSq, getFingerTip, List.getD])
  simpa [closedFarHand, List.getD] using h

/-- Every confidence `detectGesture` can produce is one of the literal branch
confidences or a pinch confidence at a non-negative distance. -/
theorem detectGesture_confidence_cases (l : List Landmark) :
    (detectGesture l).confidence = 0 ∨ (detectGesture l).confidence = 0.8 ∨
    (detectGesture l).confidence = 0.9 ∨ (detectGesture l).confidence = 0.4 ∨
    ∃ d : ℝ, 0 ≤ d ∧ (detectGesture l).confidence = pinchConfidence d := by
  by_cases hlen : l.length = 21
  · by_cases hp : calculateDistanceSq (getFingerTip l 0) (getFingerTip l 1) < 1 / 625 ∧
        getExtendedFingerCount l ≤ 1
    · refine Or.inr (Or.inr (Or.inr (Or.inr
        ⟨Real.sqrt (((calculateDistanceSq (getFingerTip l 0) (getFingerTip l 1) : ℚ) : ℝ)),
         Real.sqrt_nonneg _, ?_⟩)))
      unfold detectGesture
      rw [if_pos hlen, if_pos hp]
    · by_cases hz : isFingerExtended l 0 = true ∧ isFingerExtended l 2 = true ∧
          isFingerExtended l 1 = false ∧ isFingerExtended l 3 = false ∧
          isFingerExtended l 4 = false
      · refine Or.inr (Or.inl ?_)
        unfold detectGesture
        rw [if_pos hlen, if_neg hp, if_pos hz]
      · by_cases hf : getExtendedFingerCount l = 0
        · refine Or.inr (Or.inr (Or.inl ?_))
          unfold detectGesture
          rw [if_pos hlen, if_neg hp, if_neg hz, if_pos hf]
        · by_cases hpa : 4 ≤ getExtendedFingerCount l
          · refine Or.inr (Or.inl ?_)
            unfold detectGesture
            rw [if_pos hlen, if_neg hp, if_neg hz, if_neg hf, if_pos hpa]
          · by_cases hpt : getExtendedFingerCount l = 1 ∧ isFingerExtended l 1 = true
            · refine Or.inr (Or.inr (Or.inr (Or.inl ?_)))
              unfold detectGesture
              rw [if_pos hlen, if_neg hp, if_neg hz, if_neg hf, if_neg hpa, if_pos hpt]
            · refine Or.inl ?_
              unfold detectGesture
              rw [if_pos hlen, if_neg hp, if_neg hz, if_neg hf, if_neg hpa, if_neg hpt]
  · refine Or.inl ?_
    unfold detectGesture
    rw [if_neg hlen]

/-- Claim C9: the confidence returned by `detectGesture` always lies in
[0, 1]; in particular the pinch confidence `max(0.4, 1 - 15 d)` never falls
below 0.4 and never exceeds 1 for any non-negative distance `d`. -/
theorem confidence_in_unit_interval :
    (∀ l? : Option (List Landmark),
        0 ≤ (detectGestureOpt l?).confidence ∧ (detectGestureOpt l?).confidence ≤ 1) ∧
    (∀ d : ℝ, 0 ≤ d → 0.4 ≤ pinchConfidence d ∧ pinchConfidence d ≤ 1) := by
  have key : ∀ d : ℝ, 0 ≤ d → 0.4 ≤ pinchConfidence d ∧ pinchConfidence d ≤ 1 := by
    intro d hd
    unfold pinchConfidence
    constructor
    · exact le_max_left _ _
    · apply max_le
      · norm_num
      · nlinarith
  refine ⟨?_, key⟩
  intro l?
  cases l? with
  | none => norm_num [detectGestureOpt]
  | some l =>
      show 0 ≤ (detectGesture l).confidence ∧ (detectGesture l).confidence ≤ 1
      rcases detectGesture_confidence_cases l with h | h | h | h | ⟨d, hd, h⟩ <;> rw [h]
      · norm_num
      · norm_num
      · norm_num
      · norm_num
      · exact ⟨le_trans (by norm_num) (key d hd).1, (key d hd).2⟩

/-- Witness for C9 at the concrete distance `d = 0`. -/
theorem confidence_in_unit_interval_witness :
    0.4 ≤ pinchConfidence 0 ∧ pinchConfidence 0 ≤ 1 :=
  confidence_in_unit_interval.2 0 le_rfl

/-- `drawStep` never changes the scale. -/
theorem drawStep_scale (g : GestureState ℚ) (pre : DrawingState) (s : AppState) :
    (drawStep g pre s).drawing.scale = s.drawing.scale := by
  unfold drawStep
  split_ifs <;> rfl

/-- `drawStep` never changes the zoom baseline ref. -/
theorem drawStep_lastZoom (g : GestureState ℚ) (pre : DrawingState) (s : AppState) :
    (drawStep g pre s).lastZoomDistance = s.lastZoomDistance := by
  unfold drawStep
  split_ifs <;> rfl

/-- `gestureResetStep` only touches the last-gesture-type ref. -/
theorem gestureResetStep_drawing (g : GestureState ℚ) (s : AppState) :
    (gestureResetStep g s).drawing = s.drawing := by
  unfold gestureResetStep
  split_ifs <;> rfl

/-- `gestureResetStep` never changes the zoom baseline ref. -/
theorem gestureResetStep_lastZoom (g : GestureState ℚ) (s : AppState) :
    (gestureResetStep g s).lastZoomDistance = s.lastZoomDistance := by
  unfold gestureResetStep
  split_ifs <;> rfl

/-- `panStep` only changes the offset, the panning flag and the pan ref. -/
theorem panStep_fields (W H : ℚ) (g : GestureState ℚ) (pre : DrawingState) (s : AppState) :
    (panStep W H g pre s).drawing.scale = s.drawing.scale ∧
    (panStep W H g pre s).drawing.isDrawing = s.drawing.isDrawing ∧
    (panStep W H g pre s).drawing.currentPath = s.drawing.currentPath ∧
    (panStep W H g pre s).drawing.paths = s.drawing.paths ∧
    (panStep W H g pre s).lastZoomDistance = s.lastZoomDistance := by
  unfold panStep
  split_ifs <;>
    first
      | exact ⟨rfl, rfl, rfl, rfl, rfl⟩
      | (cases s.panStart <;> exact ⟨rfl, rfl, rfl, rfl, rfl⟩)

/-- `zoomStep` only changes the scale, the zooming flag and the zoom ref. -/
theorem zoomStep_fields (g : GestureState ℚ) (pre : DrawingState) (s : AppState) :
    (zoomStep g pre s).drawing.isDrawing = s.drawing.isDrawing ∧
    (zoomStep g pre s).drawing.currentPath = s.drawing.currentPath ∧
    (zoomStep g pre s).drawing.paths = s.drawing.paths := by
  unfold zoomStep
  split_ifs <;> exact ⟨rfl, rfl, rfl⟩

/-- `eraseStep` only changes the completed paths and the erasing flag. -/
theorem eraseStep_fields (W H : ℚ) (g : GestureState ℚ) (pre : DrawingState) (s : AppState) :
    (eraseStep W H g pre s).drawing.scale = s.drawing.scale ∧
    (eraseStep W H g pre s).drawing.isDrawing = s.drawing.isDrawing ∧
    (eraseStep W H g pre s).drawing.currentPath = s.drawing.currentPath ∧
    (eraseStep W H g pre s).lastZoomDistance = s.lastZoomDistance := by
  unfold eraseStep
  split_ifs <;> exact ⟨rfl, rfl, rfl, rfl⟩

/-- `eraseStep` filters the completed paths exactly when the gesture is a
confident fist. -/
theorem eraseStep_paths (W H : ℚ) (g : GestureState ℚ) (pre : DrawingState) (s : AppState) :
    (eraseStep W H g pre s).drawing.paths =
      (if g.type = GestureType.fist ∧ 4 / 5 < g.confidence then
        s.drawing.paths.filter (erasePred W H g pre)
      else s.drawing.paths) := by
  unfold eraseStep
  split_ifs <;> rfl

/-- `zoomStep` keeps the scale within [0.1, 5] (the clamp makes the updated
scale land in the interval unconditionally). -/
theorem zoomStep_scale_bound (g : GestureState ℚ) (pre : DrawingState) (s : AppState)
    (h1 : 1 / 10 ≤ s.drawing.scale) (h2 : s.drawing.scale ≤ 5) :
    1 / 10 ≤ (zoomStep g pre s).drawing.scale ∧ (zoomStep g pre s).drawing.scale ≤ 5 := by
  unfold zoomStep
  split_ifs <;> try exact ⟨h1, h2⟩
  exact ⟨le_max_left _ _, max_le (by norm_num) (min_le_left _ _)⟩

/-- One reducer step keeps the scale within [0.1, 5]. -/
theorem step_scale_bound (W H : ℚ) (s : AppState) (g : GestureState ℚ)
    (h1 : 1 / 10 ≤ s.drawing.scale) (h2 : s.drawing.scale ≤ 5) :
    1 / 10 ≤ (step W H s g).drawing.scale ∧ (step W H s g).drawing.scale ≤ 5 := by
  unfold step
  simp only [(eraseStep_fields W H g s.drawing _).1]
  apply zoomStep_scale_bound
  · rw [(panStep_fields W H g s.drawing _).1, gestureResetStep_drawing, drawStep_scale]
    exact h1
  · rw [(panStep_fields W H g s.drawing _).1, gestureResetStep_drawing, drawStep_scale]
    exact h2

/-- Claim C3: starting from a state whose scale lies in [0.1, 5], any finite
gesture sequence (in particular any sequence of zoom updates) keeps the scale
in [0.1, 5]; moreover a single zoom update whose ratio would drive the scale
below 0.1 (resp. above 5) pins it at exactly 0.1 (resp. 5). -/
theorem zoom_scale_clamped :
    (∀ (W H : ℚ) (s : AppState) (gs : List (GestureState ℚ)),
        1 / 10 ≤ s.drawing.scale → s.drawing.scale ≤ 5 →
        1 / 10 ≤ (gs.foldl (step W H) s).drawing.scale ∧
          (gs.foldl (step W H) s).drawing.scale ≤ 5) ∧
    (∀ (W H : ℚ) (s : AppState) (g : GestureState ℚ),
        g.type = GestureType.zoom → distTruthy g.distance → 7 / 10 < g.confidence →
        s.drawing.isZooming = true → distTruthy s.lastZoomDistance →
        ((s.drawing.scale * (g.distance.getD 0 / s.lastZoomDistance.getD 0) ≤ 1 / 10 →
            (step W H s g).drawing.scale = 1 / 10) ∧
         (5 ≤ s.drawing.scale * (g.distance.getD 0 / s.lastZoomDistance.getD 0) →
            (step W H s g).drawing.scale = 5))) := by
  constructor
  · intro W H s gs
    induction gs generalizing s with
    | nil => intro h1 h2; exact ⟨h1, h2⟩
    | cons g gs ih =>
        intro h1 h2
        have hb := step_scale_bound W H s g h1 h2
        simpa using ih (step W H s g) hb.1 hb.2
  · intro W H s g ht hd hc hz hl
    have hscale : (step W H s g).drawing.scale =
        max (1 / 10) (min 5 (s.drawing.scale * (g.distance.getD 0 / s.lastZoomDistance.getD 0))) := by
      unfold step
      simp only [(eraseStep_fields W H g s.drawing _).1]
      unfold zoomStep
      rw [if_pos ⟨ht, hd, hc⟩]
      rw [if_neg (by rw [hz]; simp)]
      rw [if_pos (by
        rw [(panStep_fields W H g s.drawing _).2.2.2.2, gestureResetStep_lastZoom,
          drawStep_lastZoom]
        exact hl)]
      simp only [(panStep_fields W H g s.drawing _).2.2.2.2, gestureResetStep_lastZoom,
        drawStep_lastZoom]
    constructor
    · intro hlow
      rw [hscale, min_eq_right (le_trans hlow (by norm_num)), max_eq_left hlow]
    · intro hhigh
      rw [hscale, min_eq_left hhigh, max_eq_right (by norm_num)]

/-- Witness for C3: one confident zoom gesture applied to the initial state
keeps the scale in bounds. -/
theorem zoom_scale_clamped_witness :
    1 / 10 ≤ (([zoomG]).foldl (step 1 1) initialAppState).drawing.scale ∧
      (([zoomG]).foldl (step 1 1) initialAppState).drawing.scale ≤ 5 :=
  zoom_scale_clamped.1 1 1 initialAppState [zoomG]
    (by norm_num [initialAppState, initialDrawingState])
    (by norm_num [initialAppState, initialDrawingState])

/-- The zoom baseline ref never holds zero after a `zoomStep`, given it did
not before. -/
theorem zoomStep_lastZoom_inv (g : GestureState ℚ) (pre : DrawingState) (s : AppState)
    (h : ∀ d, s.lastZoomDistance = Option.some d → d ≠ 0) :
    ∀ d, (zoomStep g pre s).lastZoomDistance = Option.some d → d ≠ 0 := by
  unfold zoomStep
  split_ifs with h1 h2 h3 h4
  · intro d hd
    have htr := h1.2.1
    unfold distTruthy at htr
    dsimp at hd
    rw [hd] at htr
    simpa using htr
  · intro d hd
    have htr := h1.2.1
    unfold distTruthy at htr
    dsimp at hd
    rw [hd] at htr
    simpa using htr
  · exact h
  · intro d hd
    dsimp at hd
  · exact h

/-- One reducer step preserves the nonzero-baseline invariant. -/
theorem step_lastZoom_inv (W H : ℚ) (s : AppState) (g : GestureState ℚ)
    (h : ∀ d, s.lastZoomDistance = Option.some d → d ≠ 0) :
    ∀ d, (step W H s g).lastZoomDistance = Option.some d → d ≠ 0 := by
  unfold step
  intro d hd
  dsimp at hd
  rw [(eraseStep_fields W H g s.drawing _).2.2.2] at hd
  refine zoomStep_lastZoom_inv g s.drawing _ ?_ d hd
  rw [(panStep_fields W H g s.drawing _).2.2.2.2, gestureResetStep_lastZoom, drawStep_lastZoom]
  exact h

/-- Iterating the reducer preserves the nonzero-baseline invariant. -/
theorem foldl_step_lastZoom_inv (W H : ℚ) (gs : List (GestureState ℚ)) :
    ∀ (s : AppState), (∀ e, s.lastZoomDistance = Option.some e → e ≠ 0) →
      ∀ e, (gs.foldl (step W H) s).lastZoomDistance = Option.some e → e ≠ 0 := by
  induction gs with
  | nil => intro s hs; simpa using hs
  | cons g gs ih =>
      intro s hs
      simpa using ih (step W H s g) (step_lastZoom_inv W H s g hs)

/-- Claim C10: from the initial state, after any finite gesture sequence, a
recorded zoom baseline distance is never zero (a baseline is only recorded
from a truthy `gesture.distance`, and the scale-multiplying branch is guarded
by the baseline's truthiness), so the zoom ratio's denominator is nonzero in
every reachable state. -/
theorem zoom_no_div_by_zero (W H : ℚ) (gs : List (GestureState ℚ)) (d : ℚ)
    (h : (gs.foldl (step W H) initialAppState).lastZoomDistance = Option.some d) :
    d ≠ 0 := by
  refine foldl_step_lastZoom_inv W H gs initialAppState ?_ d h
  intro e he
  exact absurd he (by simp [initialAppState])

/-- Witness for C10: after one concrete zoom gesture the recorded baseline is
1, and the theorem yields 1 ≠ 0. -/
theorem zoom_no_div_by_zero_witness : (1 : ℚ) ≠ 0 :=
  zoom_no_div_by_zero 1 1 [zoomG] 1
    (by norm_num [step, drawStep, gestureResetStep, panStep, zoomStep, eraseStep,
      zoomG, initialAppState, initialDrawingState, distTruthy])

/-- When a non-pinch gesture arrives while drawing, `drawStep` finishes the
path: strokes of more than one point are appended to the completed paths,
shorter ones are discarded. -/
theorem drawStep_stop (g : GestureState ℚ) (s : AppState)
    (hD : s.drawing.isDrawing = true) (hg : g.type ≠ GestureType.pinch) :
    drawStep g s.drawing s =
      { s with drawing := { s.drawing with
          isDrawing := false
          paths := if 1 < s.drawing.currentPath.length
                   then s.drawing.paths ++ [s.drawing.currentPath] else s.drawing.paths
          currentPath := [] } } := by
  unfold drawStep
  rw [if_neg (fun hc => hg hc.1), if_pos ⟨hD, hg⟩]
  split_ifs <;> rfl

/-- `drawStep` does nothing when not drawing and the gesture is not a
confident pinch. -/
theorem drawStep_noop (g : GestureState ℚ) (pre : DrawingState) (s : AppState)
    (h1 : ¬ (g.type = GestureType.pinch ∧ 3 / 5 < g.confidence))
    (h2 : pre.isDrawing = false) :
    drawStep g pre s = s := by
  unfold drawStep
  rw [if_neg h1, if_neg (by intro hc; rw [h2] at hc; simp at hc)]

/-- Claim C4 (amended): when a drawing session ends because the gesture
changes away from pinch, `isDrawing` becomes false and `currentPath` becomes
empty; a current path of at most one point is discarded and a path of two or
more points is appended to `paths` — except that when the session-ending
gesture is itself an erasing fist (confidence > 0.8), the erase filter runs
over the updated path list in the same step and may remove the just-appended
stroke (and other near paths). -/
theorem stroke_lifecycle_amended (W H : ℚ) (s : AppState) (g : GestureState ℚ)
    (hD : s.drawing.isDrawing = true) (hg : g.type ≠ GestureType.pinch) :
    (step W H s g).drawing.isDrawing = false ∧
    (step W H s g).drawing.currentPath = [] ∧
    (step W H s g).drawing.paths =
      (if g.type = GestureType.fist ∧ 4 / 5 < g.confidence then
        (if 1 < s.drawing.currentPath.length
         then s.drawing.paths ++ [s.drawing.currentPath] else s.drawing.paths).filter
          (erasePred W H g s.drawing)
      else
        (if 1 < s.drawing.currentPath.length
         then s.drawing.paths ++ [s.drawing.currentPath] else s.drawing.paths)) := by
  simp only [step]
  rw [drawStep_stop g s hD hg]
  simp only [eraseStep_paths, eraseStep_fields, zoomStep_fields, panStep_fields,
    gestureResetStep_drawing]
  exact ⟨trivial, trivial, trivial⟩

/-- Counterexample to claim C4 as stated: a two-point drawing session ended
by a confident fist does not leave the stroke in `paths` — the same-step
erase filter removes it. -/
theorem stroke_lifecycle_cex :
    strokeCexState.drawing.isDrawing = true ∧
    fistG.type ≠ GestureType.pinch ∧
    1 < strokeCexState.drawing.currentPath.length ∧
    (step 100 100 strokeCexState fistG).drawing.paths ≠
      strokeCexState.drawing.paths ++ [strokeCexState.drawing.currentPath] := by
  refine ⟨rfl, by decide, by decide, ?_⟩
  norm_num [step, drawStep, gestureResetStep, panStep, zoomStep, eraseStep, erasePred,
    screenToCanvas, distSq, distTruthy, strokeCexState, fistG, initialAppState,
    initialDrawingState, List.filter]

/-- Witness for the amended C4: the same session-ending fist, with the
conclusion as the amended claim states it. -/
theorem stroke_lifecycle_amended_witness :
    (step 100 100 strokeCexState fistG).drawing.isDrawing = false ∧
    (step 100 100 strokeCexState fistG).drawing.currentPath = [] ∧
    (step 100 100 strokeCexState fistG).drawing.paths =
      (if fistG.type = GestureType.fist ∧ 4 / 5 < fistG.confidence then
        (if 1 < strokeCexState.drawing.currentPath.length
         then strokeCexState.drawing.paths ++ [strokeCexState.drawing.currentPath]
         else strokeCexState.drawing.paths).filter
          (erasePred 100 100 fistG strokeCexState.drawing)
      else
        (if 1 < strokeCexState.drawing.currentPath.length
         then strokeCexState.drawing.paths ++ [strokeCexState.drawing.currentPath]
         else strokeCexState.drawing.paths)) :=
  stroke_lifecycle_amended 100 100 strokeCexState fistG rfl (by decide)

/-- Claim C5: an erase step (confident fist) applied to a state with only
completed paths removes exactly the paths having a point within the erase
radius of the fist's canvas-projected position (squared comparison; the
radius `50 / scale` is positive because the scale is), keeps every path whose
points are all strictly farther, and modifies no path partially (the
survivors are a filtered sublist of the originals). -/
theorem erase_step_correct (W H : ℚ) (s : AppState) (g : GestureState ℚ)
    (htype : g.type = GestureType.fist) (hconf : 4 / 5 < g.confidence)
    (hnd : s.drawing.isDrawing = false) (hs : 0 < s.drawing.scale) :
    (step W H s g).drawing.paths = s.drawing.paths.filter (erasePred W H g s.drawing) ∧
    (∀ path ∈ s.drawing.paths,
      (∃ pt ∈ path, distSq pt (screenToCanvas W H s.drawing.offset s.drawing.scale
          ⟨1 - g.position.x, g.position.y⟩) < (50 / s.drawing.scale) ^ 2) →
      path ∉ (step W H s g).drawing.paths) ∧
    (∀ path ∈ s.drawing.paths,
      (∀ pt ∈ path, (50 / s.drawing.scale) ^ 2 < distSq pt (screenToCanvas W H s.drawing.offset
          s.drawing.scale ⟨1 - g.position.x, g.position.y⟩)) →
      path ∈ (step W H s g).drawing.paths) := by
  have hmain : (step W H s g).drawing.paths =
      s.drawing.paths.filter (erasePred W H g s.drawing) := by
    simp only [step]
    rw [drawStep_noop g s.drawing s (by intro hc; rw [htype] at hc; simp at hc) hnd]
    simp only [eraseStep_paths, zoomStep_fields, panStep_fields, gestureResetStep_drawing]
    rw [if_pos ⟨htype, hconf⟩]
  refine ⟨hmain, ?_, ?_⟩
  · rintro path hmem ⟨pt, hpt, hlt⟩
    rw [hmain]
    intro hmemf
    rw [List.mem_filter] at hmemf
    have hpred := hmemf.2
    unfold erasePred at hpred
    simp only [Bool.not_eq_true', List.any_eq_false, decide_eq_true_eq] at hpred
    exact hpred pt hpt hlt
  · intro path hmem hfar
    rw [hmain, List.mem_filter]
    refine ⟨hmem, ?_⟩
    unfold erasePred
    simp only [Bool.not_eq_true', List.any_eq_false, decide_eq_true_eq]
    intro pt hpt
    exact not_lt_of_gt (hfar pt hpt)

/-- Witness for C5: a near path is removed and a far path kept, via the
filter characterization of the theorem. -/
theorem erase_step_correct_witness :
    (step 1 1 eraseWitnessState fistG).drawing.paths =
      eraseWitnessState.drawing.paths.filter (erasePred 1 1 fistG eraseWitnessState.drawing) :=
  (erase_step_correct 1 1 eraseWitnessState fistG rfl
    (by norm_num [fistG]) rfl
    (by norm_num [eraseWitnessState, initialAppState, initialDrawingState])).1

/-- Claim C6: the screen-to-canvas transform composed with its inverse is the
identity on every screen point, for every offset, every scale in [0.1, 5]
(hence nonzero), and nonzero viewport dimensions — exactly, over ℚ. -/
theorem screen_canvas_roundtrip (W H : ℚ) (offset : Point) (scale : ℚ) (p : Point)
    (hW : W ≠ 0) (hH : H ≠ 0) (h1 : 1 / 10 ≤ scale) (h2 : scale ≤ 5) :
    canvasToScreen W H offset scale (screenToCanvas W H offset scale p) = p := by
  have hs : scale ≠ 0 := ne_of_gt (lt_of_lt_of_le (by norm_num) h1)
  obtain ⟨px, py⟩ := p
  unfold screenToCanvas canvasToScreen
  simp only [Point.mk.injEq]
  constructor
  · field_simp
  · field_simp

/-- Witness for C6 at a concrete point, offset, scale and viewport. -/
theorem screen_canvas_roundtrip_witness :
    canvasToScreen 640 480 ⟨7, 11⟩ 2 (screenToCanvas 640 480 ⟨7, 11⟩ 2 ⟨1 / 2, 1 / 3⟩) =
      ⟨1 / 2, 1 / 3⟩ :=
  screen_canvas_roundtrip 640 480 ⟨7, 11⟩ 2 ⟨1 / 2, 1 / 3⟩
    (by norm_num) (by norm_num) (by norm_num) (by norm_num)

/-- Claim C7 (amended): while drawing with a previously emitted point
recorded, a new smoothed position is emitted as a stroke point only if its
distance from the last emitted point is at least the minimum-movement
constant 0.01 (squared comparison); positions strictly closer leave the
current path unchanged.  (At distance exactly 0.01 the source emits the
point, so "exceeds" fails — see the counterexample.) -/
theorem min_movement_amended (W H : ℚ) (s : AppState) (p lp : Point)
    (hg : s.lastGestureType = Option.some GestureType.pinch)
    (hlp : s.lastDrawPosition = Option.some lp) :
    (distSq (smoothedOf (pushHistory s.positionHistory p)) lp < 1 / 10000 →
      (handleHandPositionUpdate W H s (Option.some p)).drawing.currentPath =
        s.drawing.currentPath) ∧
    ((handleHandPositionUpdate W H s (Option.some p)).drawing.currentPath ≠
        s.drawing.currentPath →
      1 / 10000 ≤ distSq (smoothedOf (pushHistory s.positionHistory p)) lp) := by
  have heval : handleHandPositionUpdate W H s (Option.some p) =
      (if distSq (smoothedOf (pushHistory s.positionHistory p)) lp < 1 / 10000 then
        { s with positionHistory := pushHistory s.positionHistory p }
      else emitPoint W H s (pushHistory s.positionHistory p)
        (smoothedOf (pushHistory s.positionHistory p))) := by
    unfold handleHandPositionUpdate
    rw [if_pos ⟨hg, rfl⟩]
    rw [hlp]
    dsimp only [Option.getD]
  constructor
  · intro h
    rw [heval, if_pos h]
  · intro hne
    by_contra hcon
    push_neg at hcon
    rw [heval, if_pos hcon] at hne
    exact hne rfl

/-- Counterexample to claim C7 as stated: a smoothed position at distance
exactly 0.01 from the last emitted point (not exceeding the threshold) is
still emitted as a stroke point. -/
theorem min_movement_cex :
    minMoveState.lastGestureType = Option.some GestureType.pinch ∧
    minMoveState.lastDrawPosition = Option.some ⟨0, 0⟩ ∧
    distSq (smoothedOf (pushHistory minMoveState.positionHistory ⟨1 / 100, 0⟩)) ⟨0, 0⟩ =
      1 / 10000 ∧
    (handleHandPositionUpdate 1 1 minMoveState (Option.some ⟨1 / 100, 0⟩)).drawing.currentPath ≠
      minMoveState.drawing.currentPath := by
  refine ⟨rfl, rfl, ?_, ?_⟩
  · norm_num [distSq, smoothedOf, pushHistory, minMoveState, initialAppState]
  · norm_num [handleHandPositionUpdate, emitPoint, pushHistory, smoothedOf, distSq,
      screenToCanvas, minMoveState, initialAppState, initialDrawingState, Point.mk.injEq]

/-- Witness for the amended C7: a strictly-too-close position (distance
0.001) leaves the current path unchanged. -/
theorem min_movement_amended_witness :
    (handleHandPositionUpdate 1 1 minMoveState (Option.some ⟨1 / 1000, 0⟩)).drawing.currentPath =
      minMoveState.drawing.currentPath :=
  (min_movement_amended 1 1 minMoveState ⟨1 / 1000, 0⟩ ⟨0, 0⟩ rfl rfl).1
    (by norm_num [distSq, smoothedOf, pushHistory, minMoveState, initialAppState])

/-- NaN (`Option.none`) is absorbing on the right of the accumulator sum. -/
theorem naddOpt_none (a : Option ℚ) : naddOpt a Option.none = Option.none := by
  cases a <;> rfl

/-- A poisoned (NaN) total difference stays poisoned through the loop. -/
theorem foldl_motionAccum_none (cur prev : List ℕ) (l : List ℕ) :
    ∀ (a : ℕ × Option ℚ), a.2 = Option.none →
      (l.foldl (motionAccum cur prev) a).2 = Option.none := by
  induction l with
  | nil => intro a ha; simpa using ha
  | cons i is ih =>
      intro a ha
      simp only [List.foldl_cons]
      refine ih _ ?_
      unfold motionAccum
      dsimp only
      rw [ha]
      rfl

/-- With an empty previous frame every per-sample difference is NaN, so a
nonempty loop poisons the total difference. -/
theorem foldl_motionAccum_prev_nil (cur : List ℕ) (l : List ℕ) (a : ℕ × Option ℚ)
    (h : l ≠ []) : (l.foldl (motionAccum cur []) a).2 = Option.none := by
  cases l with
  | nil => exact absurd rfl h
  | cons i is =>
      simp only [List.foldl_cons]
      refine foldl_motionAccum_none cur [] is _ ?_
      unfold motionAccum prevBrightnessAt
      dsimp only
      rw [if_neg (by simp)]
      exact naddOpt_none _

/-- Claim C8: `detectMotion` always returns an actual number (never NaN,
modelled as `Option.none`): with zero sampled pixels it returns 0, and when
the average-difference computation would be NaN (e.g. against an empty
previous frame) the NaN is coerced to 0 instead of reaching the returned
motion score — in that case the whole score is 0. -/
theorem detectMotion_safe :
    (∀ cur prev : List ℕ, ∃ q : ℚ, detectMotion cur prev = Option.some q) ∧
    (∀ cur prev : List ℕ, (sampleIdxs cur.length).length = 0 →
      detectMotion cur prev = Option.some 0) ∧
    (∀ cur : List ℕ, detectMotion cur [] = Option.some 0) := by
  refine ⟨?_, ?_, ?_⟩
  · intro cur prev
    simp only [detectMotion]
    split_ifs
    · exact ⟨0, rfl⟩
    · exact ⟨_, rfl⟩
  · intro cur prev h
    simp only [detectMotion]
    rw [if_pos h]
  · intro cur
    simp only [detectMotion]
    split_ifs with h
    · rfl
    · have hne : sampleIdxs cur.length ≠ [] := by
        intro he
        rw [he] at h
        exact h rfl
      rw [foldl_motionAccum_prev_nil cur (sampleIdxs cur.length) (0, Option.some 0) hne]
      simp

/-- Witness for C8 at the concrete empty frames. -/
theorem detectMotion_safe_witness : detectMotion [] [] = Option.some 0 :=
  detectMotion_safe.2.1 [] [] (by decide)
